import Mathlib

/-!
Shallow embedding of the interactive session controller of the cotp terminal
OTP viewer (src/src/interface/app.rs), together with models of the collaborator
modules (enums, table, popup, utils) that the controller consumes but whose
sources are not part of this tree.  Machine integers (`u16`) are modelled as
`Nat` with explicit checks where overflow matters; the time-based
`percentage()` sample is passed to `tick` as an explicit argument.
-/

namespace Cotp

/-- Pages of the interface (`crate::interface::enums::Page`: `Main`, `Qrcode`,
`Info`, exactly the variants used by `App::render`). -/
inductive Page where
  | Main
  | Qrcode
  | Info
deriving DecidableEq

/-- Input focus (`crate::interface::enums::Focus`): main page, search bar, or
the modal popup. -/
inductive Focus where
  | MainPage
  | SearchBar
  | Popup
deriving DecidableEq

/-- Modelled from the spec: the pending popup action tags (`enums.rs` is not in
the tree); a delete/edit request stores an action tag.  `App::new` initialises
the field with `PopupAction::EditOtp`. -/
inductive PopupAction where
  | EditOtp
  | DeleteOtp
deriving DecidableEq

/-- A credential record (`crate::otp::otp_element::OTPElement`, module not in
the tree).  Modelled from the spec: issuer, label, a current code string
recomputed on demand, a counter for counter-based codes, and the QR-code
rendering returned by `get_qrcode`. -/
structure OTPElement where
  issuer : String
  label : String
  code : String
  counter : Nat
  qrcode : String
deriving DecidableEq

/-- The credential store (`crate::otp::otp_element::OTPDatabase`, module not in
the tree).  Modelled from the spec: `elements_ref()` exposes an ordered
sequence of records. -/
structure OTPDatabase where
  elements : List OTPElement
deriving DecidableEq

/-- The table cursor (`tui::widgets::TableState` as used by the controller):
an optional selected row index. -/
structure TableState where
  selected : Option Nat
deriving DecidableEq

/-- `crate::interface::table::StatefulTable` (module not in the tree):
a cursor plus the displayed rows, each row a list of cell strings. -/
structure StatefulTable where
  state : TableState
  items : List (List String)
deriving DecidableEq

/-- Case-insensitive substring test on lists of characters:
`strContains hay needle` holds when `needle` occurs contiguously in `hay`. -/
def strContains : List Char → List Char → Bool
  | [], needle => needle.isEmpty
  | c :: t, needle => needle.isPrefixOf (c :: t) || strContains t needle

/-- Case-insensitive containment of `needle` in `hay` (both lowered). -/
def containsCI (hay needle : String) : Bool :=
  strContains (hay.toList.map Char.toLower) (needle.toList.map Char.toLower)

/-- Modelled from the spec: a record matches the query when its issuer or its
label case-insensitively contains the query (§4.2 rebuild contract). -/
def matchesQuery (e : OTPElement) (query : String) : Bool :=
  containsCI e.issuer query || containsCI e.label query

/-- A displayed row for a store entry: (index into the store, issuer, label,
current code), the FilteredRow display tuple of §3. -/
def rowOf (p : Nat × OTPElement) : List String :=
  [toString p.1, p.2.issuer, p.2.label, p.2.code]

/-- Modelled from the spec: `fill_table` (in `crate::interface::table`, not in
the tree) rebuilds the displayed rows as `rebuild(records, query)` of §4.2:
each record whose issuer or label case-insensitively contains the query yields
one FilteredRow, in store order; an empty query yields all records. -/
def fillTable (elements : List OTPElement) (query : String) : List (List String) :=
  (elements.enum.filter (fun p => matchesQuery p.2 query)).map rowOf

/-- The application state (`App` struct of app.rs).  `progress` is the `u16`
progress sample; `popup_action` is the pending popup action, `none` standing
for an empty pending action (spec §3 invariant wording). -/
structure App where
  running : Bool
  title : String
  table : StatefulTable
  database : OTPDatabase
  progress : Nat
  label_text : String
  print_percentage : Bool
  current_page : Page
  search_query : String
  focus : Focus
  popup_text : String
  popup_action : Option PopupAction
  data_modified : Bool
deriving DecidableEq

/-- The build-time `env!("CARGO_PKG_NAME")` constant: the crate name. -/
def cargoPkgName : String := "cotp"

/-- The build-time `env!("CARGO_PKG_VERSION")` constant; the manifest is not in
the tree, so the concrete value is immaterial to every claim. -/
def cargoPkgVersion : String := "1.2.2"

/-- `App::new(database)` (app.rs lines 44-63).  The time-based
`percentage()` sample is an explicit argument `initialProgress`;
`StatefulTable::new(elements)` (module not in the tree) is modelled from the
spec as the unfiltered view with no selection.  `App::new` sets
`popup_action: PopupAction::EditOtp`, a non-empty pending action. -/
def appNew (database : OTPDatabase) (initialProgress : Nat) : App :=
  { running := true
    title := cargoPkgName ++ " v" ++ cargoPkgVersion
    table := { state := { selected := none }, items := fillTable database.elements "" }
    database := database
    progress := initialProgress
    label_text := ""
    print_percentage := true
    current_page := Page.Main
    search_query := ""
    focus := Focus.MainPage
    popup_text := ""
    popup_action := some PopupAction.EditOtp
    data_modified := false }

/-- `App::tick(force_update)` (app.rs lines 66-76).  The freshly sampled
`percentage()` value is the explicit argument `newProgress`.  When
`new_progress < self.progress || force_update`, the table items are cleared
and refilled from the store's elements; the progress sample is stored in
either case. -/
def tick (s : App) (newProgress : Nat) (forceUpdate : Bool) : App :=
  if newProgress < s.progress || forceUpdate then
    { s with
      table := { s.table with items := fillTable s.database.elements s.search_query }
      progress := newProgress }
  else
    { s with progress := newProgress }

/-- For each sample of a list, taken by successive non-forced ticks, whether
the rebuild branch of `tick` (guard `new_progress < self.progress`) runs. -/
def tickFlags : App → List Nat → List Bool
  | _, [] => []
  | s, p :: ps => decide (p < s.progress) :: tickFlags (tick s p false) ps

/-- C1: on every `tick(force)` call the table is cleared and rebuilt from the
store's elements exactly when the new sample is below the stored one or the
call is forced; on the sample sequence [40, 70, 95, 10] of successive
non-forced ticks from an initial sample of 40, the rebuild runs exactly once,
at the drop from 95 to 10. -/
theorem tick_rebuild_iff_wrap_or_force :
    (∀ (s : App) (newProgress : Nat) (forceUpdate : Bool),
      (tick s newProgress forceUpdate).table.items =
        (if newProgress < s.progress ∨ forceUpdate = true then
          fillTable s.database.elements s.search_query
        else s.table.items))
    ∧ tickFlags (appNew ⟨[]⟩ 40) [40, 70, 95, 10] = [false, false, false, true] := by
  constructor
  · intro s newProgress forceUpdate
    unfold tick
    by_cases h : newProgress < s.progress
    · simp [h]
    · cases forceUpdate <;> simp [h]
  · rfl

/-- C9: `tick` changes at most the stored progress sample and the table items:
every other field of the application state, including the table cursor, is
unchanged, and the progress sample is always replaced by the new sample. -/
theorem tick_frame :
    ∀ (s : App) (newProgress : Nat) (forceUpdate : Bool),
      (tick s newProgress forceUpdate).running = s.running
      ∧ (tick s newProgress forceUpdate).title = s.title
      ∧ (tick s newProgress forceUpdate).database = s.database
      ∧ (tick s newProgress forceUpdate).label_text = s.label_text
      ∧ (tick s newProgress forceUpdate).print_percentage = s.print_percentage
      ∧ (tick s newProgress forceUpdate).current_page = s.current_page
      ∧ (tick s newProgress forceUpdate).search_query = s.search_query
      ∧ (tick s newProgress forceUpdate).focus = s.focus
      ∧ (tick s newProgress forceUpdate).popup_text = s.popup_text
      ∧ (tick s newProgress forceUpdate).popup_action = s.popup_action
      ∧ (tick s newProgress forceUpdate).data_modified = s.data_modified
      ∧ (tick s newProgress forceUpdate).table.state = s.table.state
      ∧ (tick s newProgress forceUpdate).progress = newProgress := by
  intro s newProgress forceUpdate
  unfold tick
  split <;> simp

/-- A screen rectangle (`tui::layout::Rect`); coordinates and sizes are `u16`
values modelled as `Nat`. -/
structure Rect where
  x : Nat
  y : Nat
  width : Nat
  height : Nat
deriving DecidableEq

/-- The widgets the controller draws, keeping the state-dependent data each
one carries: a paragraph (text, block title, whether its border is drawn
highlighted), the stateful table (rows and the highlighted selected row), the
progress gauge (percent and label), and the `Clear` widget. -/
inductive Widget where
  | parWidget (text : String) (title : String) (borderHi : Bool)
  | tableWidget (rows : List (List String)) (selectedRow : Option Nat)
  | gaugeWidget (percent : Nat) (labelText : String)
  | clearWidget
deriving DecidableEq

/-- The help text of `render_info_page` (app.rs lines 88-89). -/
def infoText : String :=
  "Press:\n+ -> Increment the HOTP counter\n- -> Decrement the HOTP counter\n\n        k -> Show QRCode of the selected element\nEnter -> Copy the OTP Code to the clipboard\nCTRL-F -> Search codes\nCTRL-W -> Clear the search query\nq, CTRL-D, Esc -> Exit the application"

/-- `App::render_paragraph` (app.rs lines 128-135): a single full-frame region
(one `Percentage(100)` constraint, no margin) receiving the paragraph. -/
def renderParagraphCmds (w : Widget) (fr : Rect) : List (Widget × Rect) :=
  [(w, fr)]

/-- `App::render_info_page` (app.rs lines 87-100): a static help paragraph
titled with the application title. -/
def renderInfoPage (s : App) (fr : Rect) : List (Widget × Rect) :=
  renderParagraphCmds (Widget.parWidget infoText s.title false) fr

/-- The placeholder paragraph of `render_qrcode_page` when nothing valid is
selected: text "No element is selected", block title "Nope". -/
def noSelectionWidget : Widget :=
  Widget.parWidget "No element is selected" "Nope" false

/-- `App::render_qrcode_page` (app.rs lines 102-126): the selected element's
QR code when the selected index is in range of the store, else the
"no selection" placeholder. -/
def renderQrcodePage (s : App) (fr : Rect) : List (Widget × Rect) :=
  match s.table.state.selected with
  | some i =>
    match s.database.elements.get? i with
    | some element =>
      renderParagraphCmds
        (Widget.parWidget element.qrcode (element.issuer ++ " - " ++ element.issuer) false) fr
    | none => renderParagraphCmds noSelectionWidget fr
  | none => renderParagraphCmds noSelectionWidget fr

/-- Checked natural subtraction: `none` exactly when the subtraction would
underflow (a `u16` subtraction in the source panics in that case). -/
def checkedSub (a b : Nat) : Option Nat :=
  if b ≤ a then some (a - b) else none

/-- Wrapping `u16` subtraction together with its underflow flag, for
arguments below 2^16. -/
def u16SubWithUnderflow (a b : Nat) : Nat × Bool :=
  ((a + 65536 - b) % 65536, decide (a < b))

/-- The table-height computation of `render_main_page` (app.rs line 144):
`height - 3 - 6` in unsigned 16-bit arithmetic, with the combined underflow
flag of the two subtractions. -/
def tableHeightU16 (h : Nat) : Nat × Bool :=
  let s1 := u16SubWithUnderflow h 3
  let s2 := u16SubWithUnderflow s1.1 6
  (s2.1, s1.2 || s2.2)

/-- The margined layout area of `render_main_page` (margin 2 on each side). -/
def innerRect (fr : Rect) : Rect :=
  ⟨fr.x + 2, fr.y + 2, fr.width - 4, fr.height - 4⟩

/-- First layout region of the main page: the search bar, `Length(3)`. -/
def searchBarRect (fr : Rect) : Rect :=
  ⟨(innerRect fr).x, (innerRect fr).y, (innerRect fr).width, 3⟩

/-- Second layout region of the main page: the table,
`Length(height - 3 - 6)`. -/
def tableRect (fr : Rect) (tableH : Nat) : Rect :=
  ⟨(innerRect fr).x, (innerRect fr).y + 3, (innerRect fr).width, tableH⟩

/-- Third layout region of the main page: the progress bar, `Length(6)`. -/
def gaugeRect (fr : Rect) (tableH : Nat) : Rect :=
  ⟨(innerRect fr).x, (innerRect fr).y + 3 + tableH, (innerRect fr).width, 6⟩

/-- The search-bar block title (app.rs line 152). -/
def searchBarTitle : String := "Press CTRL + F to search a code..."

/-- The search-bar paragraph: shows the query; its border is drawn in the
highlight colour exactly when the focus is the search bar (app.rs
lines 153-166). -/
def searchBarWidget (s : App) : Widget :=
  Widget.parWidget s.search_query searchBarTitle (decide (s.focus = Focus.SearchBar))

/-- The main table widget: the filled rows with the stateful highlight on the
selected row (app.rs lines 179-208, 227). -/
def mainTableWidget (s : App) : Widget :=
  Widget.tableWidget s.table.items s.table.state.selected

/-- The gauge label (app.rs lines 210-214): the numeric percentage of the
stored progress when `print_percentage` is set, else the label text. -/
def progressLabel (s : App) : String :=
  if s.print_percentage then toString s.progress ++ "%" else s.label_text

/-- The progress gauge widget (app.rs lines 215-224). -/
def progressGauge (s : App) : Widget :=
  Widget.gaugeWidget s.progress (progressLabel s)

/-- Modelled from the spec: `centered_rect(percent_x, percent_y, r)`
(`interface::popup`, not in the tree) returns a rectangle sized as the given
percentages of `r` and centered inside `r`. -/
def centeredRect (percentX percentY : Nat) (r : Rect) : Rect :=
  { x := r.x + (r.width - r.width * percentX / 100) / 2
    y := r.y + (r.height - r.height * percentY / 100) / 2
    width := r.width * percentX / 100
    height := r.height * percentY / 100 }

/-- The popup overlay commands (app.rs lines 229-238): when the focus is the
popup, the region `centered_rect(60, 20, frame.size())` is cleared and the
"Alert" paragraph with the popup text is drawn there; otherwise nothing. -/
def popupCmds (s : App) (fr : Rect) : List (Widget × Rect) :=
  if s.focus = Focus.Popup then
    [(Widget.clearWidget, centeredRect 60 20 fr),
     (Widget.parWidget s.popup_text "Alert" false, centeredRect 60 20 fr)]
  else []

/-- `App::render_main_page` (app.rs lines 137-239): the `u16` computation
`height - 3 - 6` is checked (it panics on underflow), then the search bar,
table and gauge are drawn into the three stacked layout regions, followed by
the popup overlay when the focus is the popup. -/
def renderMainPage (s : App) (fr : Rect) : Option (List (Widget × Rect)) :=
  match checkedSub fr.height 3 with
  | none => none
  | some a =>
    match checkedSub a 6 with
    | none => none
    | some tableH =>
      some ([(searchBarWidget s, searchBarRect fr),
             (mainTableWidget s, tableRect fr tableH),
             (progressGauge s, gaugeRect fr tableH)] ++ popupCmds s fr)

/-- `App::render` (app.rs lines 79-85): one dispatch on the current page.  The
`&mut self` receiver is threaded through; no statement of any render function
assigns to it, so the state component is returned unchanged. -/
def render (s : App) (fr : Rect) : Option (List (Widget × Rect)) × App :=
  match s.current_page with
  | Page.Main => (renderMainPage s fr, s)
  | Page.Qrcode => (some (renderQrcodePage s fr), s)
  | Page.Info => (some (renderInfoPage s fr), s)

lemma checkedSub_pos {a b : Nat} (h : b ≤ a) : checkedSub a b = some (a - b) := by
  unfold checkedSub
  rw [if_pos h]

lemma checkedSub_neg {a b : Nat} (h : a < b) : checkedSub a b = none := by
  unfold checkedSub
  rw [if_neg (by omega)]

lemma renderMainPage_eq (s : App) (fr : Rect) (h : 9 ≤ fr.height) :
    renderMainPage s fr =
      some ([(searchBarWidget s, searchBarRect fr),
             (mainTableWidget s, tableRect fr (fr.height - 9)),
             (progressGauge s, gaugeRect fr (fr.height - 9))] ++ popupCmds s fr) := by
  have e3 : checkedSub fr.height 3 = some (fr.height - 3) := checkedSub_pos (by omega)
  have e6 : checkedSub (fr.height - 3) 6 = some (fr.height - 9) := by
    have e : fr.height - 3 - 6 = fr.height - 9 := by omega
    rw [checkedSub_pos (by omega), e]
  simp only [renderMainPage, e3, e6]

lemma renderMainPage_none (s : App) (fr : Rect) (h : fr.height < 9) :
    renderMainPage s fr = none := by
  rcases Nat.lt_or_ge fr.height 3 with h3 | h3
  · have e3 : checkedSub fr.height 3 = none := checkedSub_neg h3
    simp only [renderMainPage, e3]
  · have e3 : checkedSub fr.height 3 = some (fr.height - 3) := checkedSub_pos h3
    have e6 : checkedSub (fr.height - 3) 6 = none := checkedSub_neg (by omega)
    simp only [renderMainPage, e3, e6]

lemma u16_wrap_sub {a b : Nat} (ha : a < 65536) (hb : b ≤ a) :
    (a + 65536 - b) % 65536 = a - b := by
  have e : a + 65536 - b = (a - b) + 65536 := by omega
  rw [e, Nat.add_mod_right, Nat.mod_eq_of_lt (by omega)]

/-- C10: the main-page layout subtracts 3 and 6 from the frame height as
unsigned 16-bit arithmetic; the subtraction underflows exactly for frames
strictly shorter than 9 rows, rendering the main page is total exactly for
frames at least 9 rows tall, and under that precondition the computed table
height is `height - 9` with no underflow. -/
theorem main_layout_underflow_iff (s : App) (fr : Rect) (hU : fr.height < 65536) :
    ((tableHeightU16 fr.height).2 = true ↔ fr.height < 9)
    ∧ ((renderMainPage s fr).isSome = true ↔ 9 ≤ fr.height)
    ∧ (9 ≤ fr.height →
        (tableHeightU16 fr.height).2 = false
        ∧ (tableHeightU16 fr.height).1 = fr.height - 9) := by
  refine ⟨?_, ?_, ?_⟩
  · unfold tableHeightU16 u16SubWithUnderflow
    rcases Nat.lt_or_ge fr.height 3 with h3 | h3
    · have h9 : fr.height < 9 := by omega
      simp [h3, h9]
    · rw [u16_wrap_sub hU h3]
      have h3n : ¬ fr.height < 3 := by omega
      simp only [h3n, decide_eq_true_eq, decide_eq_false_iff_not, Bool.false_or, decide_eq_true_iff]
      constructor
      · intro h
        have := of_decide_eq_true h
        omega
      · intro h
        apply decide_eq_true
        omega
  · rcases Nat.lt_or_ge fr.height 9 with h9 | h9
    · rw [renderMainPage_none s fr h9]
      simp only [Option.isSome_none, Bool.false_eq_true, false_iff]
      omega
    · rw [renderMainPage_eq s fr h9]
      simp only [Option.isSome_some, true_iff]
      exact h9
  · intro h9
    unfold tableHeightU16 u16SubWithUnderflow
    have e1 : (fr.height + 65536 - 3) % 65536 = fr.height - 3 := u16_wrap_sub hU (by omega)
    constructor
    · simp only [e1]
      have a1 : ¬ fr.height < 3 := by omega
      have a2 : ¬ fr.height - 3 < 6 := by omega
      simp [a1, a2]
    · simp only [e1]
      rw [u16_wrap_sub (by omega) (by omega)]
      omega

/-- A sample credential record used to instantiate proved properties. -/
def exampleElement : OTPElement :=
  { issuer := "GitHub", label := "alice", code := "123456", counter := 0, qrcode := "qr" }

/-- A one-record sample store. -/
def exampleDb : OTPDatabase := ⟨[exampleElement]⟩

/-- A sample application state produced by the constructor. -/
def exampleApp : App := appNew exampleDb 40

/-- Witness for C10 at a 80x24 frame. -/
theorem main_layout_underflow_iff_witness :
    ((tableHeightU16 (24 : Nat)).2 = true ↔ (24 : Nat) < 9)
    ∧ ((renderMainPage exampleApp ⟨0, 0, 80, 24⟩).isSome = true ↔ (9 : Nat) ≤ 24)
    ∧ ((9 : Nat) ≤ 24 →
        (tableHeightU16 (24 : Nat)).2 = false
        ∧ (tableHeightU16 (24 : Nat)).1 = 24 - 9) :=
  main_layout_underflow_iff exampleApp ⟨0, 0, 80, 24⟩ (by decide)

/-- C4: rendering returns the application state with every field unchanged,
and a second render from the returned state produces the identical output. -/
theorem render_pure_idempotent :
    ∀ (s : App) (fr : Rect),
      (render s fr).2 = s
      ∧ (render ((render s fr).2) fr).1 = (render s fr).1 := by
  intro s fr
  have h2 : (render s fr).2 = s := by
    cases hp : s.current_page <;> simp [render, hp]
  exact ⟨h2, by rw [h2]⟩

/-- C8: `render` is a single case dispatch on the current page, a pure
function of the state: `Main` yields the main-page layout, `Qrcode` the
QR-code layout, `Info` the help layout, and the page type has no other
variant. -/
theorem render_dispatch :
    ∀ (s : App) (fr : Rect),
      (∀ p : Page, p = Page.Main ∨ p = Page.Qrcode ∨ p = Page.Info)
      ∧ render s fr =
          (match s.current_page with
           | Page.Main => (renderMainPage s fr, s)
           | Page.Qrcode => (some (renderQrcodePage s fr), s)
           | Page.Info => (some (renderInfoPage s fr), s)) := by
  intro s fr
  refine ⟨?_, rfl⟩
  intro p
  cases p
  · exact Or.inl rfl
  · exact Or.inr (Or.inl rfl)
  · exact Or.inr (Or.inr rfl)

/-- C5: on the QR-code page the render pass always succeeds; it draws the
selected element's QR code when the selected index is in range of the store,
and the "no selection" placeholder when nothing is selected or the selected
index is past the end of the store. -/
theorem qrcode_render_selection (s : App) (fr : Rect)
    (hq : s.current_page = Page.Qrcode) :
    (render s fr).1.isSome = true
    ∧ (∀ (i : Nat) (e : OTPElement),
        s.table.state.selected = some i → s.database.elements.get? i = some e →
        (render s fr).1 =
          some [(Widget.parWidget e.qrcode (e.issuer ++ " - " ++ e.issuer) false, fr)])
    ∧ (∀ i : Nat,
        s.table.state.selected = some i → s.database.elements.length ≤ i →
        (render s fr).1 = some [(noSelectionWidget, fr)])
    ∧ (s.table.state.selected = none →
        (render s fr).1 = some [(noSelectionWidget, fr)]) := by
  refine ⟨?_, ?_, ?_, ?_⟩
  · simp [render, hq]
  · intro i e hi he
    have he2 : s.database.elements[i]? = some e := by
      rw [← List.get?_eq_getElem?]
      exact he
    simp [render, hq, renderQrcodePage, hi, he2, renderParagraphCmds]
  · intro i hi hlen
    have hn : s.database.elements[i]? = none := by
      rw [← List.get?_eq_getElem?, List.get?_eq_none]
      exact hlen
    simp [render, hq, renderQrcodePage, hi, hn, renderParagraphCmds]
  · intro hn
    simp [render, hq, renderQrcodePage, hn, renderParagraphCmds]

/-- A sample state on the QR-code page with the first row selected. -/
def exampleQrApp : App :=
  { exampleApp with
    current_page := Page.Qrcode
    table := { state := { selected := some 0 }, items := [] } }

/-- Witness for C5: the sample QR-page state renders the selected record's
QR code. -/
theorem qrcode_render_selection_witness :
    (render exampleQrApp ⟨0, 0, 80, 24⟩).1 =
      some [(Widget.parWidget exampleElement.qrcode
              (exampleElement.issuer ++ " - " ++ exampleElement.issuer) false,
             ⟨0, 0, 80, 24⟩)] :=
  (qrcode_render_selection exampleQrApp ⟨0, 0, 80, 24⟩ rfl).2.1 0 exampleElement rfl rfl

/-- C6: during a main-page render the overlay confirmation panel with the
popup text is drawn exactly when the focus is the popup; when drawn it sits at
`centered_rect(60, 20, frame)`, a region sized as fixed percentages of the
viewport and centered in it, and the `Clear` widget is drawn on that region
before the panel. -/
theorem popup_overlay_iff (s : App) (fr : Rect) (h : 9 ≤ fr.height) :
    renderMainPage s fr =
      some ([(searchBarWidget s, searchBarRect fr),
             (mainTableWidget s, tableRect fr (fr.height - 9)),
             (progressGauge s, gaugeRect fr (fr.height - 9))]
            ++ (if s.focus = Focus.Popup then
                  [(Widget.clearWidget, centeredRect 60 20 fr),
                   (Widget.parWidget s.popup_text "Alert" false, centeredRect 60 20 fr)]
                else []))
    ∧ (∀ cmds, renderMainPage s fr = some cmds →
        ((Widget.clearWidget, centeredRect 60 20 fr) ∈ cmds ↔ s.focus = Focus.Popup))
    ∧ (centeredRect 60 20 fr).width = fr.width * 60 / 100
    ∧ (centeredRect 60 20 fr).height = fr.height * 20 / 100
    ∧ (centeredRect 60 20 fr).x = fr.x + (fr.width - (centeredRect 60 20 fr).width) / 2
    ∧ (centeredRect 60 20 fr).y = fr.y + (fr.height - (centeredRect 60 20 fr).height) / 2 := by
  have hb := renderMainPage_eq s fr h
  refine ⟨?_, ?_, rfl, rfl, rfl, rfl⟩
  · rw [hb]
    rfl
  · intro cmds hc
    rw [hb] at hc
    have hc2 := Option.some.inj hc
    subst hc2
    by_cases hf : s.focus = Focus.Popup
    · simp [popupCmds, hf]
    · simp [popupCmds, hf, searchBarWidget, mainTableWidget, progressGauge]

/-- Witness for C6 at a 80x24 frame: the popup region is 60 percent of the
viewport width. -/
theorem popup_overlay_iff_witness :
    (centeredRect 60 20 ⟨0, 0, 80, 24⟩).width = 80 * 60 / 100 :=
  (popup_overlay_iff exampleApp ⟨0, 0, 80, 24⟩ (by decide)).2.2.1

/-- C7: the main page stacks, top to bottom, the bordered search bar (border
highlighted exactly when the search bar has focus), the table of rows with the
selected row highlighted, and the progress indicator labelled with the numeric
percentage of the stored progress when the percentage flag is set and with the
caller-supplied label text otherwise. -/
theorem main_page_layout (s : App) (fr : Rect) (h : 9 ≤ fr.height) :
    (∃ rest, renderMainPage s fr =
        some ((searchBarWidget s, searchBarRect fr)
              :: (mainTableWidget s, tableRect fr (fr.height - 9))
              :: (progressGauge s, gaugeRect fr (fr.height - 9)) :: rest))
    ∧ searchBarWidget s =
        Widget.parWidget s.search_query searchBarTitle (decide (s.focus = Focus.SearchBar))
    ∧ mainTableWidget s = Widget.tableWidget s.table.items s.table.state.selected
    ∧ progressGauge s =
        Widget.gaugeWidget s.progress
          (if s.print_percentage then toString s.progress ++ "%" else s.label_text)
    ∧ (tableRect fr (fr.height - 9)).y = (searchBarRect fr).y + (searchBarRect fr).height
    ∧ (gaugeRect fr (fr.height - 9)).y =
        (tableRect fr (fr.height - 9)).y + (tableRect fr (fr.height - 9)).height := by
  refine ⟨⟨popupCmds s fr, ?_⟩, rfl, rfl, rfl, rfl, rfl⟩
  rw [renderMainPage_eq s fr h]
  rfl

/-- Witness for C7 at a 80x24 frame: the table region starts right below the
search bar. -/
theorem main_page_layout_witness :
    (tableRect ⟨0, 0, 80, 24⟩ (24 - 9)).y =
      (searchBarRect ⟨0, 0, 80, 24⟩).y + (searchBarRect ⟨0, 0, 80, 24⟩).height :=
  (main_page_layout exampleApp ⟨0, 0, 80, 24⟩ (by decide)).2.2.2.2.1

lemma strContains_nil (l : List Char) : strContains l [] = true := by
  cases l with
  | nil => rfl
  | cons c t => rfl

lemma containsCI_empty_needle (hay : String) : containsCI hay "" = true := by
  unfold containsCI
  exact strContains_nil _

lemma matchesQuery_empty (e : OTPElement) : matchesQuery e "" = true := by
  unfold matchesQuery
  rw [containsCI_empty_needle]
  rfl

lemma fillTable_empty_query (elements : List OTPElement) :
    fillTable elements "" = elements.enum.map rowOf := by
  unfold fillTable
  rw [List.filter_eq_self.mpr]
  intro p _
  exact matchesQuery_empty p.2

/-- C3: whenever a rotation-window wrap is detected or the rebuild is forced,
the rebuilt view is `rebuild(records, query)`: exactly the store records whose
issuer or label case-insensitively contains the current search query, kept in
store order, and an empty query yields every record unfiltered. -/
theorem rebuild_filters_by_query (s : App) (newProgress : Nat) (forceUpdate : Bool)
    (h : newProgress < s.progress ∨ forceUpdate = true) :
    (tick s newProgress forceUpdate).table.items =
      (s.database.elements.enum.filter
        (fun p => containsCI p.2.issuer s.search_query
          || containsCI p.2.label s.search_query)).map rowOf
    ∧ (s.search_query = "" →
        (tick s newProgress forceUpdate).table.items = s.database.elements.enum.map rowOf) := by
  have ht : (tick s newProgress forceUpdate).table.items =
      fillTable s.database.elements s.search_query := by
    unfold tick
    rcases h with h | h
    · simp [h]
    · subst h
      simp
  constructor
  · rw [ht]
    rfl
  · intro hq
    rw [ht, hq, fillTable_empty_query]

/-- Witness for C3: a wrap from sample 40 to sample 10 rebuilds the sample
state's view as the query filter dictates. -/
theorem rebuild_filters_by_query_witness :
    (tick exampleApp 10 false).table.items =
      (exampleApp.database.elements.enum.filter
        (fun p => containsCI p.2.issuer exampleApp.search_query
          || containsCI p.2.label exampleApp.search_query)).map rowOf :=
  (rebuild_filters_by_query exampleApp 10 false (Or.inl (by decide))).1

/-- Modelled from the spec: selection clamping after a rebuild (§4.2): the
selection index is clamped to the new sequence's bounds; an empty sequence
clears the selection. -/
def clampSelection (sel : Option Nat) (len : Nat) : Option Nat :=
  match sel with
  | none => none
  | some i => if len = 0 then none else some (min i (len - 1))

/-- Modelled from the spec: a Filtered View rebuild performed by the event
handlers (§4.2): the rows are recomputed from the store and the current query
and the selection is clamped to the new bounds. -/
def rebuildView (s : App) : App :=
  let items := fillTable s.database.elements s.search_query
  { s with
    table := { state := { selected := clampSelection s.table.state.selected items.length }
               items := items } }

/-- Remove the last character of the query (search-bar backspace). -/
def dropLastChar (q : String) : String :=
  q.toList.dropLast.asString

/-- Modelled from the spec: the keyboard-driven inputs of §4.1 (the event
handler module is not in the tree). -/
inductive Input where
  | activateSearch
  | showQrCode
  | showHelp
  | incrementCounter
  | decrementCounter
  | searchChar (c : Char)
  | searchBackspace
  | clearSearch
  | leaveSearch
  | requestDelete
  | requestEdit
  | confirmPopup
  | cancelPopup
  | navigateBack
  | quit
deriving DecidableEq

/-- Modelled from the spec: the counter-mutation operation of the Credential
Store applied to the currently selected record, marking the data modified
(§4.1); out-of-range or missing selections are left untouched (§7 recovers
stale selections locally). -/
def bumpCounter (s : App) (up : Bool) : App :=
  match s.table.state.selected with
  | none => s
  | some i =>
    match s.database.elements.get? i with
    | none => s
    | some e =>
      let e2 := { e with counter := if up then e.counter + 1 else e.counter - 1 }
      rebuildView { s with database := ⟨s.database.elements.set i e2⟩, data_modified := true }

/-- Modelled from the spec: confirming the popup applies the pending action
(delete the targeted record, or commit the pending edit), sets the dirty flag
when data mutated, discards the pending action and returns focus to the main
page (§4.1). -/
def applyPopupAction (s : App) : App :=
  match s.popup_action with
  | none => { s with focus := Focus.MainPage }
  | some PopupAction.EditOtp =>
    { s with data_modified := true, popup_action := none, focus := Focus.MainPage }
  | some PopupAction.DeleteOtp =>
    match s.table.state.selected with
    | none => { s with popup_action := none, focus := Focus.MainPage }
    | some i =>
      rebuildView
        { s with database := ⟨s.database.elements.eraseIdx i⟩
                 data_modified := true
                 popup_action := none
                 focus := Focus.MainPage }

/-- Modelled from the spec: the single-threaded transition function of the
Session State Machine (§4.1).  Quit is accepted from every state; every
transition that moves focus to the popup stores a pending action tag; confirm
and cancel return focus to the main page; inputs that §4.1 leaves undefined
for the current focus do nothing. -/
def step (s : App) (i : Input) : App :=
  match i, s.focus with
  | Input.quit, _ => { s with running := false }
  | Input.confirmPopup, Focus.Popup => applyPopupAction s
  | Input.cancelPopup, Focus.Popup => { s with popup_action := none, focus := Focus.MainPage }
  | _, Focus.Popup => s
  | Input.searchChar c, Focus.SearchBar =>
      rebuildView { s with search_query := s.search_query.push c }
  | Input.searchBackspace, Focus.SearchBar =>
      rebuildView { s with search_query := dropLastChar s.search_query }
  | Input.clearSearch, Focus.SearchBar => rebuildView { s with search_query := "" }
  | Input.leaveSearch, Focus.SearchBar => { s with focus := Focus.MainPage }
  | _, Focus.SearchBar => s
  | Input.activateSearch, Focus.MainPage =>
      if s.current_page = Page.Main then { s with focus := Focus.SearchBar } else s
  | Input.showQrCode, Focus.MainPage =>
      if s.current_page = Page.Main ∧ s.table.state.selected.isSome = true then
        { s with current_page := Page.Qrcode }
      else s
  | Input.showHelp, Focus.MainPage =>
      if s.current_page = Page.Main then { s with current_page := Page.Info } else s
  | Input.incrementCounter, Focus.MainPage => bumpCounter s true
  | Input.decrementCounter, Focus.MainPage => bumpCounter s false
  | Input.requestDelete, Focus.MainPage =>
      { s with popup_text := "Do you want to delete the selected element?"
               popup_action := some PopupAction.DeleteOtp
               focus := Focus.Popup }
  | Input.requestEdit, Focus.MainPage =>
      { s with popup_text := "Do you want to edit the selected element?"
               popup_action := some PopupAction.EditOtp
               focus := Focus.Popup }
  | Input.navigateBack, Focus.MainPage =>
      if s.current_page = Page.Main then s else { s with current_page := Page.Main }
  | _, Focus.MainPage => s

/-- Run a sequence of inputs through the transition function. -/
def runInputs (s : App) (inputs : List Input) : App :=
  inputs.foldl step s

lemma rebuildView_focus (s : App) : (rebuildView s).focus = s.focus := rfl

lemma rebuildView_popup_action (s : App) : (rebuildView s).popup_action = s.popup_action := rfl

lemma bumpCounter_focus (s : App) (up : Bool) : (bumpCounter s up).focus = s.focus := by
  unfold bumpCounter
  cases hs : s.table.state.selected with
  | none => rfl
  | some i =>
    dsimp only
    cases he : s.database.elements.get? i with
    | none => rfl
    | some e => rfl

lemma bumpCounter_popup_action (s : App) (up : Bool) :
    (bumpCounter s up).popup_action = s.popup_action := by
  unfold bumpCounter
  cases hs : s.table.state.selected with
  | none => rfl
  | some i =>
    dsimp only
    cases he : s.database.elements.get? i with
    | none => rfl
    | some e => rfl

lemma applyPopupAction_focus (s : App) : (applyPopupAction s).focus = Focus.MainPage := by
  unfold applyPopupAction
  cases hp : s.popup_action with
  | none => rfl
  | some pa =>
    cases pa with
    | EditOtp => rfl
    | DeleteOtp =>
      cases hs : s.table.state.selected with
      | none => rfl
      | some i => rfl

lemma step_preserves_popup_inv (s : App) (i : Input)
    (h : s.focus = Focus.Popup → s.popup_action ≠ none) :
    (step s i).focus = Focus.Popup → (step s i).popup_action ≠ none := by
  cases hf : s.focus <;> cases i <;>
    simp only [step, hf, applyPopupAction_focus, bumpCounter_focus, bumpCounter_popup_action,
      rebuildView_focus, rebuildView_popup_action] <;>
    first
      | (intro hP; exact h hf)
      | (intro hP; simp at hP; done)
      | (intro hP; simp; done)
      | (split <;> intro hP <;> first | (exact h hP) | (simp at hP; done))

/-- The popup invariant holds on every state reached from a given state. -/
lemma runInputs_popup_inv (s : App) (inputs : List Input)
    (h : s.focus = Focus.Popup → s.popup_action ≠ none) :
    (runInputs s inputs).focus = Focus.Popup → (runInputs s inputs).popup_action ≠ none := by
  induction inputs generalizing s with
  | nil => exact h
  | cons i rest ih => exact ih (step s i) (step_preserves_popup_inv s i h)

/-- C2: in every session state reachable from `App::new` by input-driven
transitions, popup focus implies a non-empty pending popup action; the invalid
combination of popup focus with an empty pending action is never constructed. -/
theorem popup_focus_requires_action (db : OTPDatabase) (p0 : Nat) (inputs : List Input) :
    (runInputs (appNew db p0) inputs).focus = Focus.Popup →
    (runInputs (appNew db p0) inputs).popup_action ≠ none := by
  apply runInputs_popup_inv
  intro hP
  exact absurd hP (by simp [appNew])

/-- Witness for C2: after a delete request the focus is the popup and the
pending action is non-empty. -/
theorem popup_focus_requires_action_witness :
    (runInputs (appNew ⟨[]⟩ 0) [Input.requestDelete]).popup_action ≠ none :=
  popup_focus_requires_action ⟨[]⟩ 0 [Input.requestDelete] (by decide)

end Cotp
